import Mathlib

/-
Verification development for the meticulous submission pipeline.

The development shallowly embeds the two source modules:
  app/meticulous/_webstate.py  (the interaction channel, StateHandler)
  app/meticulous/_submit.py    (the submission pipeline)

Pure string construction is embedded as Lean string functions, the
condition-variable wait of StateHandler.get_await is embedded as an explicit
loop over a list of externally produced events, and failable code is embedded
with Except, where the error type enumerates the Python exception classes the
source can raise.
-/

deriving instance DecidableEq for Except

namespace Meticulous

/-! ## Interaction channel: app/meticulous/_webstate.py -/

/-- State of a StateHandler instance, per the fields set in __init__:
alive flag, message log, await_key (the pending question slot, nullable) and
response_val (the pending answer slot, nullable).  The question and answer
values are both embedded as strings: nothing in the verified claims depends
on their inner structure. -/
structure ChannelState where
  alive : Bool
  messages : List String
  await_key : Option String
  response_val : Option String
deriving DecidableEq

/-- Modelled from the spec: the answer(value) operation of the Interaction
Channel.  The code that delivers an answer (the web responder that writes into
the StateHandler slots) is not among the sources here, only its reader
get_await is; per the spec, answer sets the answer slot, clears the
PendingQuestion slot the instant the answer is delivered, and is a no-op when
no PendingQuestion is outstanding. -/
def answer (s : ChannelState) (v : String) : ChannelState :=
  if s.await_key.isSome then
    { s with response_val := some v, await_key := none }
  else
    s

/-- External events that can hit the channel state while the worker thread is
parked inside get_await (each wake of the bounded condition wait lets other
threads run): a spec-modelled answer delivery, the stop() call flipping the
liveness flag (the rest of stop, the join, blocks until the worker exits), a
raw write of the response_val slot by an external thread, or a send appending
to the log. -/
inductive WEvent where
  | answer (v : String)
  | stop
  | deliver (ov : Option String)
  | send (m : String)
deriving DecidableEq

def applyWEvent : WEvent → ChannelState → ChannelState
  | WEvent.answer v, s => answer s v
  | WEvent.stop, s => { s with alive := false }
  | WEvent.deliver ov, s => { s with response_val := ov }
  | WEvent.send m, s => { s with messages := s.messages ++ [m] }

/-- Whether an event can place a non-null value into the answer slot. -/
def sets_answer : WEvent → Bool
  | WEvent.answer _ => true
  | WEvent.deliver (some _) => true
  | _ => false

/-- First half of StateHandler.get_await, under the condition lock: clear any
stale answer (self.response_val = None) and store the question
(self.await_key = key). -/
def get_await_enter (s : ChannelState) (key : String) : ChannelState :=
  { s with response_val := none, await_key := some key }

/-- Second half of StateHandler.get_await: the wait loop
`while self.response_val is None: self.condition.wait(10)` followed by
`return self.response_val`.  Each bounded wait releases the lock, so between
wakes the listed external events apply in order; the loop re-checks only
response_val (faithfully to the source, which never reads self.alive here)
and exits as soon as the slot is non-null, returning the slot value and the
state at that instant.  A run that exhausts the events still waiting is
returned as none: the worker is still blocked. -/
def get_await_loop : List WEvent → ChannelState → Option (String × ChannelState)
  | [], s => s.response_val.map (fun v => (v, s))
  | e :: rest, s =>
    match s.response_val with
    | some v => some (v, s)
    | none => get_await_loop rest (applyWEvent e s)

/-- Concrete channel state of a worker parked on a question. -/
def chanParked : ChannelState :=
  { alive := true, messages := [], await_key := some "q", response_val := none }

/-- Concrete channel state right after a raw delivery of "yes" to chanParked. -/
def chanDelivered : ChannelState :=
  { alive := true, messages := [], await_key := some "q", response_val := some "yes" }

/-! ## Submission pipeline: app/meticulous/_submit.py -/

/-- One saved fix record, the dictionary shape used throughout _submit.py:
reponame (used by the submit handler to select the batch), repodir, the two
differing words and the touched file paths. -/
structure RepoSave where
  reponame : String
  repodir : String
  add_word : String
  del_word : String
  file_paths : List String
deriving DecidableEq

/-- A task dictionary as built by the handlers.  The submit handler builds
tasks without a priority key and with the batch under
repository_saves_multi; the cleanup task carries priority 20 and no batch. -/
structure TaskJson where
  name : String
  interactive : Bool
  priority : Option Nat
  reponame : String
  repository_saves_multi : Option (List RepoSave)
deriving DecidableEq

/-- Module constants of _submit.py. -/
def ALWAYS_BATCH_MODE : Bool := true

def ALWAYS_ISSUE_AND_BRANCH : Bool := true

def ALWAYS_PLAIN_PR : Bool := true

/-- The cleanup task enqueued by add_cleanup. -/
def cleanup_task (reponame : String) : TaskJson :=
  { name := "cleanup", interactive := true, priority := some 20,
    reponame := reponame, repository_saves_multi := none }

/-- The submit task handler.  It reads every record currently stored under
MULTI_SAVE_KEY, keeps those whose reponame matches, computes submit_plain
(the interactive confirmation branch is dead because ALWAYS_PLAIN_PR is true),
unconditionally enqueues the next task carrying the filtered batch, and then
stores the empty list back under MULTI_SAVE_KEY.  Result: the list of enqueued
tasks and the store content after the handler ran. -/
def submit (reponame : String) (store : List RepoSave) :
    List TaskJson × List RepoSave :=
  let repository_saves_multi := store.filter (fun r => r.reponame == reponame)
  let submit_plain :=
    if repository_saves_multi.length = 1 then ALWAYS_PLAIN_PR else false
  let task : TaskJson :=
    { name :=
        if ALWAYS_ISSUE_AND_BRANCH then "issue_and_branch"
        else if submit_plain then "plain_pr" else "full_pr",
      interactive := false,
      priority := none,
      reponame := reponame,
      repository_saves_multi := some repository_saves_multi }
  ([task], [])

/-- Python exception classes that the embedded _submit.py code can raise. -/
inductive PyExc where
  | valueError (msg : String)
  | processExecutionError (msg : String)
  | githubException (msg : String)
  | exceptionOther (msg : String)
  | nameError (msg : String)
  | attributeError (msg : String)
deriving DecidableEq

/-- Result of the create_pr call of the hosting API. -/
structure PullReq where
  number : Nat
  html_url : String
deriving DecidableEq

/-- Outcomes of the version-control collaborator calls made by
push_commit_multi: each git command either yields its output or raises
ProcessExecutionError with some message (plumbum raises exactly that class on
a failing command). -/
structure GitOracle where
  head_branch : Except String String
  commit : Except String Unit
  push : Except String Unit
deriving DecidableEq

/-- Outcome of the create_pr call of the hosting API collaborator: a pull
request object or a GithubException with some message.  The source passes
title, body and branch names to create_pr; the outcome is modelled as fixed
per run because nothing verified here depends on how the collaborator uses
those arguments. -/
structure ApiOracle where
  create_pr : Except String PullReq
deriving DecidableEq

/-- Characters stripped by the Python str.strip call. -/
def is_py_space (c : Char) : Bool :=
  c == ' ' || c == '\t' || c == '\n' || c == '\r' || c == '\x0b' || c == '\x0c'

/-- Python str.strip over the string content. -/
def py_strip (s : String) : String :=
  String.mk (((s.data.dropWhile is_py_space).reverse.dropWhile is_py_space).reverse)

/-- Python str.replace for the single-character pattern used by the source
(spaces replaced by underscores). -/
def replace_spaces (s : String) : String :=
  String.mk (s.data.map (fun c => if c == ' ' then '_' else c))

/-- Python str.join over a separator, as used for file lists and bodies. -/
def join_with (sep : String) : List String → String
  | [] => ""
  | [x] => x
  | x :: y :: rest => x ++ sep ++ join_with sep (y :: rest)

def split_lines_chars : List Char → List (List Char)
  | [] => [[]]
  | c :: rest =>
    if c == '\n' then [] :: split_lines_chars rest
    else
      match split_lines_chars rest with
      | [] => [[c]]
      | l :: ls => (c :: l) :: ls

/-- Split file content at newlines, the line structure seen by repeated
readline calls. -/
def split_lines (s : String) : List String :=
  (split_lines_chars s.data).map String.mk

/-- Output of get_note for a null pr_url, as interpolated by the source. -/
def get_note (kind : String) : String :=
  "Semi-automated " ++ kind ++ " generated by\n" ++
    "https://github.com/timgates42/meticulous" ++ "/blob/master/docs/NOTE.md"

/-- Content that make_a_commit writes into __commit__.txt: the f-string of
the source followed by the final newline print appends. -/
def make_a_commit_text (reposave : RepoSave) : String :=
  "docs: fix simple typo, " ++ reposave.del_word ++ " -> " ++ reposave.add_word ++
    "\n\nThere is a small typo in " ++ join_with ", " reposave.file_paths ++
    ".\n\nShould read `" ++ reposave.add_word ++ "` rather than `" ++
    reposave.del_word ++ "`.\n\n"

/-- make_a_commit_multi: an empty batch returns without writing (ok none);
a single record delegates to make_a_commit, producing its commit file text;
a larger batch first builds the aggregate path list and then calls
file_paths.sorted() on it, an attribute Python lists do not have, so the call
raises AttributeError there (and the lines after it would read the unbound
name reposave). -/
def make_a_commit_multi (reponame : String) (reposaves : List RepoSave)
    (is_full : Bool) : Except PyExc (Option String) :=
  match reponame, reposaves, is_full with
  | _, [], _ => Except.ok none
  | _, [r], _ => Except.ok (some (make_a_commit_text r))
  | _, _ :: _ :: _, _ =>
    let _file_paths := ((reposaves.map RepoSave.file_paths).flatten).dedup
    Except.error (PyExc.attributeError "list object has no attribute sorted")

/-- load_commit_like_file over the file content: title is the stripped first
line, the second line must be blank (else the source raises a plain
Exception), the body is the rest of the file. -/
def load_commit_like_file (content : String) : Except PyExc (String × String) :=
  match split_lines content with
  | [] => Except.ok ("", "")
  | [l1] => Except.ok (py_strip l1, "")
  | l1 :: l2 :: rest =>
    if py_strip l2 = "" then Except.ok (py_strip l1, join_with "\n" rest)
    else Except.error (PyExc.exceptionOther "Needs to be a blank second line.")

/-- push_commit_multi: read the current branch (git symbolic-ref, stripped),
commit from __commit__.txt, push to the fix branch; each failing command
raises ProcessExecutionError.  The second component records the external git
calls actually performed, in order. -/
def push_commit_multi (git : GitOracle) : Except PyExc String × List String :=
  match git.head_branch with
  | Except.error m => (Except.error (PyExc.processExecutionError m), ["git symbolic-ref"])
  | Except.ok out =>
    match git.commit with
    | Except.error m =>
      (Except.error (PyExc.processExecutionError m), ["git symbolic-ref", "git commit"])
    | Except.ok _ =>
      match git.push with
      | Except.error m =>
        (Except.error (PyExc.processExecutionError m),
         ["git symbolic-ref", "git commit", "git push"])
      | Except.ok _ => (Except.ok (py_strip out), ["git symbolic-ref", "git commit", "git push"])

/-- non_interactive_prepare_commit_multi: an empty batch raises ValueError
"No fixes to prepare"; records disagreeing on repodir raise ValueError
"Mismatch in repositories preparing commit"; otherwise the commit file is
loaded, the branch name is computed (single fix: bugfix_typo_ plus the added
word with spaces replaced by underscores; several fixes: bugfix_typos) and the
commit is pushed.  The second component is the list of git calls performed. -/
def non_interactive_prepare_commit_multi (reposaves : List RepoSave)
    (commit_file : String) (git : GitOracle) :
    Except PyExc (String × String × String × String) × List String :=
  match reposaves with
  | [] => (Except.error (PyExc.valueError "No fixes to prepare"), [])
  | reposave :: rest =>
    if (reposave :: rest).any (fun check => reposave.repodir != check.repodir) then
      (Except.error (PyExc.valueError "Mismatch in repositories preparing commit"), [])
    else
      match load_commit_like_file commit_file with
      | Except.error e => (Except.error e, [])
      | Except.ok (title, body) =>
        let branch_name :=
          if (reposave :: rest).length = 1 then
            "bugfix_typo_" ++ replace_spaces reposave.add_word
          else "bugfix_typos"
        match push_commit_multi git with
        | (Except.error e, tr) => (Except.error e, tr)
        | (Except.ok to_branch, tr) =>
          (Except.ok (title, body, branch_name, to_branch), tr)

/-- non_interactive_submit_commit_multi: the whole body runs under a try that
catches ValueError, ProcessExecutionError and GithubException, converting each
into a status string naming the repository; every other exception propagates.
On success the body extends the issue body with the provenance note and calls
create_pr.  The second component is the list of external calls performed. -/
def non_interactive_submit_commit_multi (reponame : String)
    (reposaves : List RepoSave) (commit_file : String) (git : GitOracle)
    (api : ApiOracle) : Except PyExc String × List String :=
  match non_interactive_prepare_commit_multi reposaves commit_file git with
  | (Except.ok (_title, body, _from_branch, _to_branch), tr) =>
    let _fullbody := body ++ "\n" ++ get_note "pull request"
    match api.create_pr with
    | Except.ok pullreq =>
      (Except.ok ("Created PR #" ++ toString pullreq.number ++ " view at " ++
         pullreq.html_url), tr ++ ["create_pr"])
    | Except.error _m =>
      (Except.ok ("Failed to create pr for " ++ reponame ++ "."), tr ++ ["create_pr"])
  | (Except.error (PyExc.valueError _m), tr) =>
    (Except.ok ("Failed to process " ++ reponame ++ "."), tr)
  | (Except.error (PyExc.processExecutionError _m), tr) =>
    (Except.ok ("Failed to commit for " ++ reponame ++ "."), tr)
  | (Except.error (PyExc.githubException _m), tr) =>
    (Except.ok ("Failed to create pr for " ++ reponame ++ "."), tr)
  | (Except.error e, tr) => (Except.error e, tr)

/-- Result of running a terminal task handler: the handler outcome (an
uncaught exception aborts the task), the tasks it enqueued and the external
calls performed. -/
structure HandlerRun where
  result : Except PyExc Unit
  enqueued : List TaskJson
  calls : List String
deriving DecidableEq

/-- The plain_pr task handler: plain_pr_for (make_a_commit_multi, then
non_interactive_submit_commit_multi whose returned status string is
discarded), then add_cleanup.  When make_a_commit_multi wrote nothing (empty
batch) the submission step reads whatever stale __commit__.txt content is on
disk, passed here as stale_commit_file.  Cleanup is enqueued exactly when
the handler body runs to completion without an uncaught exception. -/
def plain_pr_handler (reponame : String) (reposaves : List RepoSave)
    (stale_commit_file : String) (git : GitOracle) (api : ApiOracle) : HandlerRun :=
  match make_a_commit_multi reponame reposaves false with
  | Except.error e => { result := Except.error e, enqueued := [], calls := [] }
  | Except.ok written =>
    match non_interactive_submit_commit_multi reponame reposaves
        (written.getD stale_commit_file) git api with
    | (Except.error e, tr) => { result := Except.error e, enqueued := [], calls := tr }
    | (Except.ok _status, tr) =>
      { result := Except.ok (), enqueued := [cleanup_task reponame], calls := tr }

/-- issue_and_branch_for.  Faithful to the source: after binding the marker
file name, the next statement of the function body reads reposave["repodir"],
but no variable named reposave is bound anywhere in this function (its
parameters are reponame and repository_saves_multi, and no global of that name
exists), so every call raises NameError right there, before the
__no_issues__.txt check, the commit, the issue and the amend. -/
def issue_and_branch_for (reponame : String)
    (repository_saves_multi : List RepoSave) : Except PyExc Unit :=
  let _no_issues := "__no_issues__.txt"
  Except.error (PyExc.nameError "name reposave is not defined")

/-- Concrete records and oracles used by the closed theorems below. -/
def saveA : RepoSave :=
  { reponame := "aaa", repodir := "/tmp/aaa", add_word := "the",
    del_word := "teh", file_paths := ["README.md"] }

def saveB : RepoSave :=
  { reponame := "bbb", repodir := "/tmp/bbb", add_word := "weird",
    del_word := "wierd", file_paths := ["docs/x.md"] }

def save7 : RepoSave :=
  { reponame := "rep7", repodir := "/tmp/rep7", add_word := "across",
    del_word := "accross", file_paths := ["doc.md"] }

def commitFile7 : String := "title\n\nbody\n"

def gitAllOk : GitOracle :=
  { head_branch := Except.ok "main\n", commit := Except.ok (), push := Except.ok () }

def gitCommitFails : GitOracle :=
  { head_branch := Except.ok "main\n", commit := Except.error "boom",
    push := Except.ok () }

def gitPushFails : GitOracle :=
  { head_branch := Except.ok "main\n", commit := Except.ok (),
    push := Except.error "denied" }

def apiOk : ApiOracle := { create_pr := Except.ok { number := 7, html_url := "http://x" } }

def apiFails : ApiOracle := { create_pr := Except.error "forbidden" }

def save9 : RepoSave :=
  { reponame := "r9", repodir := "/tmp/r9", add_word := "receive",
    del_word := "recieve", file_paths := ["a.md"] }

/-- First line of a generated text: the characters before the first newline. -/
def first_line (s : String) : String :=
  String.mk (s.data.takeWhile (fun c => c != '\n'))

end Meticulous

namespace Meticulous

/-! ## Helper lemmas about the wait loop -/

/-- While no event places a non-null value into the answer slot, the
get_await wait loop never exits, no matter how many wakes occur. -/
theorem get_await_loop_none_of_no_answer :
    ∀ (evs : List WEvent) (s : ChannelState),
    s.response_val = none →
    (∀ e ∈ evs, sets_answer e = false) →
    get_await_loop evs s = none := by
  intro evs
  induction evs with
  | nil =>
    intro s h0 _
    simp [get_await_loop, h0]
  | cons e rest ih =>
    intro s h0 h
    have he : sets_answer e = false := h e (List.mem_cons_self e rest)
    have hrest : ∀ x ∈ rest, sets_answer x = false :=
      fun x hx => h x (List.mem_cons_of_mem e hx)
    have h1 : (applyWEvent e s).response_val = none := by
      cases e with
      | answer v => simp [sets_answer] at he
      | stop => simpa [applyWEvent] using h0
      | deliver ov =>
        cases ov with
        | none => simp [applyWEvent]
        | some v => simp [sets_answer] at he
      | send m => simpa [applyWEvent] using h0
    rw [get_await_loop, h0]
    exact ih (applyWEvent e s) h1 hrest

/-- When the wait loop exits, the state it returns holds the returned value
in the answer slot: the only exit condition is a non-null response_val. -/
theorem get_await_loop_some_response :
    ∀ (evs : List WEvent) (s s' : ChannelState) (v : String),
    get_await_loop evs s = some (v, s') → s'.response_val = some v := by
  intro evs
  induction evs with
  | nil =>
    intro s s' v h
    cases hr : s.response_val with
    | none => rw [get_await_loop, hr] at h; simp at h
    | some w =>
      rw [get_await_loop, hr] at h
      simp at h
      obtain ⟨hv, hs⟩ := h
      rw [← hs, hr, hv]
  | cons e rest ih =>
    intro s s' v h
    rw [get_await_loop] at h
    cases hr : s.response_val with
    | none =>
      rw [hr] at h
      exact ih (applyWEvent e s) s' v h
    | some w =>
      rw [hr] at h
      simp at h
      obtain ⟨hv, hs⟩ := h
      rw [← hs, hr, hv]

/-! ## Claims about the interaction channel -/

/-- C1: the claim says that when stop() clears the liveness flag while the
worker is parked inside get_await, the worker observes the cleared flag on its
next periodic wake and exits within one wake interval.  The source disagrees:
the wait loop of get_await re-checks only response_val and never reads
self.alive, so after the stop event the worker stays blocked across every
subsequent wake (here: arbitrarily many further stop-flag wakes), and the
thread join inside stop() can never complete. -/
theorem c1_stop_never_wakes_get_await (s : ChannelState) (n : Nat)
    (h : s.response_val = none) :
    get_await_loop (List.replicate n WEvent.stop) (applyWEvent WEvent.stop s) = none := by
  apply get_await_loop_none_of_no_answer
  · simpa [applyWEvent] using h
  · intro e he
    rw [List.eq_of_mem_replicate he]
    rfl

/-- Witness for C1 at a concrete parked state and three further wakes. -/
theorem c1_witness :
    get_await_loop (List.replicate 3 WEvent.stop) (applyWEvent WEvent.stop chanParked) = none :=
  c1_stop_never_wakes_get_await chanParked 3 rfl

/-- C2: an ask that is answered behaves cleanly: get_await first clears any
stale answer, and once the (spec-modelled) answer delivers value v the loop
returns exactly v; in the state at return the PendingQuestion slot is cleared,
so no residual question or answer state can leak into a later ask (whose own
entry step clears the answer slot again). -/
theorem c2_ask_returns_answer_and_clears_slot (s : ChannelState) (k v : String) :
    (get_await_enter s k).response_val = none
    ∧ get_await_loop [WEvent.answer v] (get_await_enter s k)
        = some (v, { alive := s.alive, messages := s.messages,
                     await_key := none, response_val := some v }) :=
  ⟨rfl, rfl⟩

/-- C10: the wait loop of get_await can only ever hand back a non-null
answer.  First conjunct: whenever the loop exits with value v, the answer slot
at that instant holds some v (the loop exit condition).  Second conjunct: a
run in which no event places a non-null value into the slot (in particular a
run whose deliveries all write null) never unblocks the worker, so a responder
cannot transmit null as an answer value through the channel. -/
theorem c10_ask_result_never_null :
    (∀ (evs : List WEvent) (s s' : ChannelState) (v : String),
      get_await_loop evs s = some (v, s') → s'.response_val = some v)
    ∧ (∀ (evs : List WEvent) (s : ChannelState),
      s.response_val = none →
      (∀ e ∈ evs, sets_answer e = false) →
      get_await_loop evs s = none) :=
  ⟨get_await_loop_some_response, get_await_loop_none_of_no_answer⟩

/-- Witness for C10: a raw delivery of "yes" unblocks the loop in a state
whose slot holds "yes", while a null delivery (together with stop and send
events) leaves the worker blocked. -/
theorem c10_witness :
    chanDelivered.response_val = some "yes"
    ∧ get_await_loop [WEvent.stop, WEvent.deliver none, WEvent.send "hi"] chanParked = none :=
  ⟨c10_ask_result_never_null.1 [WEvent.deliver (some "yes")] chanParked chanDelivered "yes"
      (by decide),
   c10_ask_result_never_null.2 [WEvent.stop, WEvent.deliver none, WEvent.send "hi"] chanParked
      rfl (by decide)⟩

/-! ## Helper lemmas about strings -/

theorem string_data_append (a b : String) : (a ++ b).data = a.data ++ b.data := rfl

/-- takeWhile passes over a leading block of elements that all satisfy the
predicate. -/
theorem takeWhile_append_of_all {α : Type} (p : α → Bool) (l1 l2 : List α)
    (h : ∀ c ∈ l1, p c = true) :
    (l1 ++ l2).takeWhile p = l1 ++ l2.takeWhile p := by
  induction l1 with
  | nil => simp
  | cons a t ih =>
    have ha := h a (List.mem_cons_self a t)
    simp [List.takeWhile_cons, ha,
      ih (fun c hc => h c (List.mem_cons_of_mem a hc))]

/-! ## Claims about the submission pipeline -/

/-- C3 counterexample: the claim says submit leaves the records of every
other repository unchanged.  With records saved for repositories aaa and bbb,
running submit for aaa leaves a store whose bbb records differ from the bbb
records before the run: submit stored the empty list over the whole key, so
the bbb record is gone. -/
theorem c3_counterexample :
    ((submit "aaa" [saveA, saveB]).2.filter (fun r => r.reponame == "bbb"))
      ≠ ([saveA, saveB].filter (fun r => r.reponame == "bbb")) := by
  decide

/-- C3 amended: after the submit task runs for repository R the store holds
no FixRecords for R, because submit writes the empty list back over the whole
saved-fix key; for the same reason the records of every other repository are
also removed rather than left unchanged. -/
theorem c3_amended_submit_clears_whole_store (reponame : String)
    (store : List RepoSave) :
    (submit reponame store).2.filter (fun r => r.reponame == reponame) = []
    ∧ (submit reponame store).2 = [] :=
  ⟨rfl, rfl⟩

/-- C4 counterexample: the claim says an empty batch makes the policy step
signal a fatal error and enqueue no terminal task.  With an empty store the
batch for myrepo is empty, yet submit returns normally (its handler signals
nothing) and enqueues the terminal task issue_and_branch carrying the empty
batch. -/
theorem c4_counterexample :
    (submit "myrepo" []).1.map TaskJson.name = ["issue_and_branch"]
    ∧ (submit "myrepo" []).1.map TaskJson.repository_saves_multi = [some []] := by
  decide

/-- C4 amended: the policy step enqueues a terminal task regardless of batch
validity; the malformed batch is rejected only when the terminal task runs:
non_interactive_prepare_commit_multi raises ValueError for an empty batch and
for records disagreeing on the repository path, in both cases before any VCS
call is made. -/
theorem c4_amended_prepare_rejects_bad_batch (cf : String) (git : GitOracle) :
    non_interactive_prepare_commit_multi [] cf git
      = (Except.error (PyExc.valueError "No fixes to prepare"), [])
    ∧ ∀ (r1 r2 : RepoSave) (rest : List RepoSave),
      r1.repodir ≠ r2.repodir →
      non_interactive_prepare_commit_multi (r1 :: r2 :: rest) cf git
        = (Except.error (PyExc.valueError "Mismatch in repositories preparing commit"), []) := by
  refine ⟨rfl, ?_⟩
  intro r1 r2 rest h
  have hb : (r1.repodir != r2.repodir) = true := bne_iff_ne.mpr h
  simp [non_interactive_prepare_commit_multi, List.any_cons, hb]

/-- Witness for C4 at a concrete mismatching two-record batch. -/
theorem c4_witness :
    non_interactive_prepare_commit_multi [saveA, saveB] "x" gitAllOk
      = (Except.error (PyExc.valueError "Mismatch in repositories preparing commit"), []) :=
  (c4_amended_prepare_rejects_bad_batch "x" gitAllOk).2 saveA saveB [] (by decide)

/-- C5: the claim says a batch of size greater than one yields one aggregated
commit message.  The source instead crashes for every such batch: after
computing the aggregate path list it calls file_paths.sorted(), which raises
AttributeError, so no message is generated at all. -/
theorem c5_multi_record_batch_raises (reponame : String) (r1 r2 : RepoSave)
    (rest : List RepoSave) (is_full : Bool) :
    make_a_commit_multi reponame (r1 :: r2 :: rest) is_full
      = Except.error (PyExc.attributeError "list object has no attribute sorted") :=
  rfl

/-- C6: the claim describes the marker-file fallback and the
issue-then-amend flow of issue_and_branch_for.  The source instead raises
NameError on every call: the function body reads the unbound name reposave in
its second statement, so neither the fallback nor the commit, issue or amend
ever happens. -/
theorem c6_issue_and_branch_always_raises (reponame : String)
    (rsm : List RepoSave) :
    issue_and_branch_for reponame rsm
      = Except.error (PyExc.nameError "name reposave is not defined") :=
  rfl

/-- C7: every VCS failure (ProcessExecutionError) and hosting-API failure
(GithubException) raised while finalizing a submission is caught inside
non_interactive_submit_commit_multi and converted into a status string naming
the repository.  First conjunct: such an error never propagates out.  Second
conjunct: when the prepare step fails with a VCS error the function returns
the Failed-to-commit string for the repository and its call trace is exactly
the prepare trace, so no further external call and no retry follows the
failure.  Third conjunct: when preparation succeeded and create_pr fails, the
function returns the Failed-to-create-pr string after that single create_pr
call. -/
theorem c7_vcs_api_failures_converted (reponame : String)
    (reposaves : List RepoSave) (cf : String) (git : GitOracle) (api : ApiOracle) :
    (∀ m, (non_interactive_submit_commit_multi reponame reposaves cf git api).1
        ≠ Except.error (PyExc.processExecutionError m)
      ∧ (non_interactive_submit_commit_multi reponame reposaves cf git api).1
        ≠ Except.error (PyExc.githubException m))
    ∧ (∀ m tr,
      non_interactive_prepare_commit_multi reposaves cf git
        = (Except.error (PyExc.processExecutionError m), tr) →
      non_interactive_submit_commit_multi reponame reposaves cf git api
        = (Except.ok ("Failed to commit for " ++ reponame ++ "."), tr))
    ∧ (∀ t4 tr m,
      non_interactive_prepare_commit_multi reposaves cf git = (Except.ok t4, tr) →
      api.create_pr = Except.error m →
      non_interactive_submit_commit_multi reponame reposaves cf git api
        = (Except.ok ("Failed to create pr for " ++ reponame ++ "."), tr ++ ["create_pr"])) := by
  refine ⟨?_, ?_, ?_⟩
  · intro m
    rcases hp : non_interactive_prepare_commit_multi reposaves cf git with ⟨p, tr⟩
    cases p with
    | ok t4 =>
      obtain ⟨a, b, c, d⟩ := t4
      cases hc : api.create_pr with
      | ok pr =>
        constructor <;> simp [non_interactive_submit_commit_multi, hp, hc]
      | error me =>
        constructor <;> simp [non_interactive_submit_commit_multi, hp, hc]
    | error e =>
      cases e <;> constructor <;> simp [non_interactive_submit_commit_multi, hp]
  · intro m tr hp
    simp [non_interactive_submit_commit_multi, hp]
  · intro t4 tr m hp hc
    obtain ⟨a, b, c, d⟩ := t4
    simp [non_interactive_submit_commit_multi, hp, hc]

/-- Witness for C7: a failing git commit and a failing create_pr, each at a
concrete single-record batch, yield the two status strings naming the
repository, with the call traces ending at the failed call. -/
theorem c7_witness :
    non_interactive_submit_commit_multi "rep7" [save7] commitFile7 gitCommitFails apiOk
      = (Except.ok "Failed to commit for rep7.", ["git symbolic-ref", "git commit"])
    ∧ non_interactive_submit_commit_multi "rep7" [save7] commitFile7 gitAllOk apiFails
      = (Except.ok "Failed to create pr for rep7.",
         ["git symbolic-ref", "git commit", "git push", "create_pr"]) := by
  constructor
  · have h := (c7_vcs_api_failures_converted "rep7" [save7] commitFile7
      gitCommitFails apiOk).2.1 "boom" ["git symbolic-ref", "git commit"] (by decide)
    exact h.trans (by decide)
  · have h := (c7_vcs_api_failures_converted "rep7" [save7] commitFile7
      gitAllOk apiFails).2.2 ("title", "body\n", "bugfix_typo_across", "main")
      ["git symbolic-ref", "git commit", "git push"] "forbidden" (by decide) rfl
    exact h.trans (by decide)

/-- C8 counterexample: the claim says a VCS failure in the terminal handler
prevents the cleanup task from being enqueued.  With a failing git push, the
plain_pr handler still returns normally (the failure was converted to a
status string inside the submission function, and that string is discarded)
and the cleanup task for the repository is enqueued. -/
theorem c8_counterexample :
    gitPushFails.push = Except.error "denied"
    ∧ (plain_pr_handler "aaa" [saveA] "" gitPushFails apiOk).result = Except.ok ()
    ∧ (plain_pr_handler "aaa" [saveA] "" gitPushFails apiOk).enqueued
        = [cleanup_task "aaa"] := by
  refine ⟨rfl, ?_, ?_⟩ <;> decide

/-- C8 amended: cleanup is enqueued exactly when the terminal handler body
returns without an uncaught exception.  For a single-record batch whose
generated commit file is well formed, the handler always returns normally and
enqueues cleanup, even when the VCS push or the pull-request creation failed,
because those failures are converted to status strings before the handler
reaches add_cleanup.  Cleanup is skipped only when an exception escapes the
handler, as for every batch of size greater than one (the AttributeError of
make_a_commit_multi). -/
theorem c8_amended_cleanup_follows_handler_return (reponame : String)
    (r : RepoSave) (stale : String) (git : GitOracle) (api : ApiOracle) :
    (∀ t b, load_commit_like_file (make_a_commit_text r) = Except.ok (t, b) →
      (plain_pr_handler reponame [r] stale git api).result = Except.ok ()
      ∧ (plain_pr_handler reponame [r] stale git api).enqueued
          = [cleanup_task reponame])
    ∧ ∀ (r1 r2 : RepoSave) (rest : List RepoSave),
      (plain_pr_handler reponame (r1 :: r2 :: rest) stale git api).enqueued = []
      ∧ (plain_pr_handler reponame (r1 :: r2 :: rest) stale git api).result
          = Except.error (PyExc.attributeError "list object has no attribute sorted") := by
  constructor
  · intro t b hl
    cases hhb : git.head_branch with
    | error m =>
      constructor <;>
        simp [plain_pr_handler, make_a_commit_multi, Option.getD,
          non_interactive_submit_commit_multi, non_interactive_prepare_commit_multi,
          push_commit_multi, hl, hhb, List.any_cons, List.any_nil, bne_self_eq_false]
    | ok out =>
      cases hcm : git.commit with
      | error m =>
        constructor <;>
          simp [plain_pr_handler, make_a_commit_multi, Option.getD,
            non_interactive_submit_commit_multi, non_interactive_prepare_commit_multi,
            push_commit_multi, hl, hhb, hcm, List.any_cons, List.any_nil, bne_self_eq_false]
      | ok u =>
        cases hps : git.push with
        | error m =>
          constructor <;>
            simp [plain_pr_handler, make_a_commit_multi, Option.getD,
              non_interactive_submit_commit_multi, non_interactive_prepare_commit_multi,
              push_commit_multi, hl, hhb, hcm, hps, List.any_cons, List.any_nil,
              bne_self_eq_false]
        | ok u2 =>
          cases hc : api.create_pr with
          | ok pr =>
            constructor <;>
              simp [plain_pr_handler, make_a_commit_multi, Option.getD,
                non_interactive_submit_commit_multi, non_interactive_prepare_commit_multi,
                push_commit_multi, hl, hhb, hcm, hps, hc, List.any_cons, List.any_nil,
                bne_self_eq_false]
          | error me =>
            constructor <;>
              simp [plain_pr_handler, make_a_commit_multi, Option.getD,
                non_interactive_submit_commit_multi, non_interactive_prepare_commit_multi,
                push_commit_multi, hl, hhb, hcm, hps, hc, List.any_cons, List.any_nil,
                bne_self_eq_false]
  · intro r1 r2 rest
    exact ⟨rfl, rfl⟩

/-- Witness for C8: a concrete single-record batch with a failing git push
still enqueues the cleanup task. -/
theorem c8_witness :
    (plain_pr_handler "www" [saveA] "" gitPushFails apiOk).result = Except.ok ()
    ∧ (plain_pr_handler "www" [saveA] "" gitPushFails apiOk).enqueued
        = [cleanup_task "www"] :=
  (c8_amended_cleanup_follows_handler_return "www" saveA "" gitPushFails apiOk).1
    "docs: fix simple typo, teh -> the"
    "There is a small typo in README.md.\n\nShould read `the` rather than `teh`.\n\n"
    (by decide)

/-- C9: for a single-record batch, make_a_commit_multi produces the commit
file of make_a_commit, and its first line is exactly
docs: fix simple typo, removedWord -> addedWord, whenever the two words are
newline free. -/
theorem c9_single_record_first_line (reponame : String) (r : RepoSave)
    (is_full : Bool)
    (hd : ∀ c ∈ r.del_word.data, (c != '\n') = true)
    (ha : ∀ c ∈ r.add_word.data, (c != '\n') = true) :
    make_a_commit_multi reponame [r] is_full = Except.ok (some (make_a_commit_text r))
    ∧ first_line (make_a_commit_text r)
        = "docs: fix simple typo, " ++ r.del_word ++ " -> " ++ r.add_word := by
  refine ⟨rfl, ?_⟩
  have hMdata : (make_a_commit_text r).data
      = "docs: fix simple typo, ".data ++ (r.del_word.data ++ (" -> ".data ++
        (r.add_word.data ++ ("\n\nThere is a small typo in ".data ++
        ((join_with ", " r.file_paths).data ++ (".\n\nShould read `".data ++
        (r.add_word.data ++ ("` rather than `".data ++
        (r.del_word.data ++ "`.\n\n".data))))))))) := by
    simp [make_a_commit_text, string_data_append, List.append_assoc]
  have hTdata : ("docs: fix simple typo, " ++ r.del_word ++ " -> " ++ r.add_word).data
      = "docs: fix simple typo, ".data ++ (r.del_word.data ++ (" -> ".data ++
        r.add_word.data)) := by
    simp [string_data_append, List.append_assoc]
  have hX : ∀ (l : List Char),
      ("\n\nThere is a small typo in ".data ++ l).takeWhile (fun c => c != '\n') = [] := by
    intro l
    rfl
  have h1 : (make_a_commit_text r).data.takeWhile (fun c => c != '\n')
      = ("docs: fix simple typo, " ++ r.del_word ++ " -> " ++ r.add_word).data := by
    rw [hMdata, hTdata]
    rw [takeWhile_append_of_all _ _ _ (by decide)]
    rw [takeWhile_append_of_all _ _ _ hd]
    rw [takeWhile_append_of_all _ _ _ (by decide)]
    rw [takeWhile_append_of_all _ _ _ ha]
    rw [hX]
    simp
  unfold first_line
  rw [h1]

/-- Witness for C9 at the single FixRecord with removed word recieve and
added word receive. -/
theorem c9_witness :
    first_line (make_a_commit_text save9)
      = "docs: fix simple typo, recieve -> receive" := by
  have h := c9_single_record_first_line "r9" save9 false (by decide) (by decide)
  exact h.2.trans (by decide)

end Meticulous
